import Mathlib

/-!
Verification development for the CineHub media-hub application.

Each definition below is a shallow embedding of a function of the
repository (src/app/db.py, src/app/services/recommender.py,
src/app/services/provider.py, src/app/services/jellyfin.py,
src/app/services/tmdb.py, src/app/main.py).  SQLite state is modelled as
an explicit list of rows, HTTP calls as explicit outcome parameters of
type Except, and Python exceptions as Except errors.
-/

/-! ## src/app/db.py — the ratings store

The `ratings` table (source TEXT, key TEXT, stars INTEGER,
updated_at DATETIME, PRIMARY KEY (source, key)) is modelled as a list of
rows; `updated_at` timestamps are abstract naturals supplied by the
caller (CURRENT_TIMESTAMP at the moment of the write). -/

structure RatingRow where
  source : String
  key : String
  stars : Int
  updated_at : Nat
deriving DecidableEq, Repr

/-- Rows matching a given (source, key) primary-key pair. -/
def rowMatches (source key : String) (r : RatingRow) : Bool :=
  r.source == source && r.key == key

/-- `upsert_rating` (src/app/db.py lines 40-57).
`stars = max(1, min(5, int(stars)))`, then
`INSERT ... ON CONFLICT(source, key) DO UPDATE SET stars=excluded.stars,
updated_at=CURRENT_TIMESTAMP`: if a row with this primary key exists it
is updated in place, otherwise a fresh row is inserted. -/
def upsert_rating (db : List RatingRow) (source key : String) (stars : Int)
    (now : Nat) : List RatingRow :=
  let s := max 1 (min 5 stars)
  if db.any (rowMatches source key) then
    db.map (fun r =>
      if rowMatches source key r then
        { r with stars := s, updated_at := now }
      else r)
  else
    db ++ [⟨source, key, s, now⟩]

/-- `get_rating` (src/app/db.py lines 60-73): `SELECT stars FROM ratings
WHERE source=? AND key=?` followed by `fetchone`; `None` when no row
matches. -/
def get_rating (db : List RatingRow) (source key : String) : Option Int :=
  (db.find? (rowMatches source key)).map (fun r => r.stars)

/-- Number of stored rows for one (source, key) pair. -/
def countKey (db : List RatingRow) (source key : String) : Nat :=
  db.countP (rowMatches source key)

-- Helper lemmas about the store.

lemma upsert_cons_of_not_match (r : RatingRow) (db : List RatingRow)
    (source key : String) (stars : Int) (now : Nat)
    (h : rowMatches source key r = false) :
    upsert_rating (r :: db) source key stars now =
      r :: upsert_rating db source key stars now := by
  unfold upsert_rating
  by_cases hany : db.any (rowMatches source key)
  · simp [List.any_cons, h, hany]
  · simp only [List.any_cons, h, Bool.false_or]
    simp [hany]

lemma get_rating_upsert (db : List RatingRow) (source key : String)
    (stars : Int) (now : Nat) :
    get_rating (upsert_rating db source key stars now) source key =
      some (max 1 (min 5 stars)) := by
  induction db with
  | nil =>
    simp [upsert_rating, get_rating, List.find?, rowMatches]
  | cons r rest ih =>
    by_cases h : rowMatches source key r
    · unfold upsert_rating
      simp only [List.any_cons, h, Bool.true_or, if_true]
      unfold get_rating
      simp only [List.map_cons, h, if_true, List.find?]
      have hm : rowMatches source key { r with stars := max 1 (min 5 stars), updated_at := now } = true := by
        simpa [rowMatches] using h
      simp [hm]
    · rw [upsert_cons_of_not_match r rest source key stars now (by simpa using h)]
      unfold get_rating
      simp only [List.find?]
      have h' : rowMatches source key r = false := by simpa using h
      simp only [h']
      exact ih

/-- C1: after `upsert_rating`, `get_rating` on the same (source, key)
returns the clamped value `max(1, min(5, stars))`, for every integer
`stars`, including values outside [1, 5]. -/
theorem upsert_then_get_clamps (db : List RatingRow) (source key : String)
    (stars : Int) (now : Nat) :
    get_rating (upsert_rating db source key stars now) source key =
      some (max 1 (min 5 stars)) :=
  get_rating_upsert db source key stars now

lemma countKey_upsert (db : List RatingRow) (source key : String)
    (stars : Int) (now : Nat) (h : countKey db source key ≤ 1) :
    countKey (upsert_rating db source key stars now) source key = 1 := by
  unfold upsert_rating countKey
  by_cases hany : db.any (rowMatches source key) = true
  · rw [if_pos hany]
    have hmap : (db.map (fun r =>
        if rowMatches source key r then
          { r with stars := max 1 (min 5 stars), updated_at := now }
        else r)).countP (rowMatches source key) =
        db.countP (rowMatches source key) := by
      rw [List.countP_map]
      apply List.countP_congr
      intro r _
      simp only [Function.comp_apply]
      by_cases hr : rowMatches source key r = true
      · rw [if_pos hr]
        exact Iff.rfl
      · rw [if_neg hr]
    rw [hmap]
    have hpos : 0 < db.countP (rowMatches source key) := by
      rw [List.countP_pos_iff]
      exact List.any_eq_true.mp hany
    have hle : db.countP (rowMatches source key) ≤ 1 := h
    omega
  · rw [if_neg hany]
    have hzero : db.countP (rowMatches source key) = 0 := by
      rw [List.countP_eq_zero]
      intro a ha
      intro hmatch
      exact hany (List.any_eq_true.mpr ⟨a, ha, hmatch⟩)
    rw [List.countP_append, hzero]
    simp [rowMatches]

/-- C7: a second `upsert_rating` on the same (source, key) — with any
second stars value, equal to the first or not — leaves exactly one row
for that key, and that row holds the latest clamped value
`max(1, min(5, stars2))` (last-writer-wins); repeating an identical
upsert is idempotent with respect to the stored stars.  The hypothesis
`countKey db source key ≤ 1` is the PRIMARY KEY (source, key) invariant
of the SQLite table. -/
theorem upsert_upsert_single_row (db : List RatingRow) (source key : String)
    (stars1 stars2 : Int) (t1 t2 : Nat) (h : countKey db source key ≤ 1) :
    countKey (upsert_rating (upsert_rating db source key stars1 t1) source key stars2 t2)
        source key = 1 ∧
    get_rating (upsert_rating (upsert_rating db source key stars1 t1) source key stars2 t2)
        source key = some (max 1 (min 5 stars2)) ∧
    get_rating (upsert_rating (upsert_rating db source key stars1 t1) source key stars1 t2)
        source key =
      get_rating (upsert_rating db source key stars1 t1) source key := by
  have h1 : countKey (upsert_rating db source key stars1 t1) source key = 1 :=
    countKey_upsert db source key stars1 t1 h
  refine ⟨countKey_upsert _ source key stars2 t2 (le_of_eq h1), ?_, ?_⟩
  · exact get_rating_upsert _ source key stars2 t2
  · rw [get_rating_upsert, get_rating_upsert]

/-- Witness for `upsert_upsert_single_row` at a concrete store, with a
first stars value (9) above the range and a different second stars
value (-3) below it: one row remains, holding the clamp of the latest
value. -/
theorem upsert_upsert_single_row_witness :
    countKey [] "jellyfin" "42" ≤ 1 ∧
    (countKey (upsert_rating (upsert_rating [] "jellyfin" "42" 9 0) "jellyfin" "42" (-3) 1)
        "jellyfin" "42" = 1 ∧
    get_rating (upsert_rating (upsert_rating [] "jellyfin" "42" 9 0) "jellyfin" "42" (-3) 1)
        "jellyfin" "42" = some (max 1 (min 5 (-3))) ∧
    get_rating (upsert_rating (upsert_rating [] "jellyfin" "42" 9 0) "jellyfin" "42" 9 1)
        "jellyfin" "42" =
      get_rating (upsert_rating [] "jellyfin" "42" 9 0) "jellyfin" "42") :=
  ⟨by decide, upsert_upsert_single_row [] "jellyfin" "42" 9 (-3) 0 1 (by decide)⟩

/-! ## src/app/services/recommender.py — the recommendation filter

`Recommender.recommend_download` (lines 23-42) iterates over the TMDB
trending candidates, derives a media type, skips candidates with no id,
skips candidates already in the Jellyfin library, and collects the rest
until `limit` items have been gathered.  The Jellyfin dependency
`self.jellyfin.is_in_library(tmdb_id, media_type)` is passed in as the
predicate `inLib`; the candidate list is the sequence obtained from
`self.tmdb.get_trending(limit=100)`.  The embedding is instrumented with
a log of the (tmdb_id, media_type) pairs on which `is_in_library` is
invoked, in invocation order, so that the short-circuit behaviour is
observable. -/

structure Candidate where
  media_type : Option String
  name : Option String
  id : Option Int
deriving DecidableEq, Repr

/-- Python truthiness of an optional string: `None` and `""` are falsy. -/
def truthyStr : Option String → Bool
  | none => false
  | some s => !(s == "")

/-- `item.get("media_type") or ("tv" if item.get("name") else "movie")`
(recommender.py line 34). -/
def candMediaType (c : Candidate) : String :=
  match c.media_type with
  | some s => if s == "" then (if truthyStr c.name then "tv" else "movie") else s
  | none => if truthyStr c.name then "tv" else "movie"

/-- Loop body of `recommend_download` (recommender.py lines 33-41),
carrying the accumulated `suggestions` list and the instrumentation log
of `is_in_library` invocations.  The media type is computed before the
id check, as in the source; since it is a pure computation this is
observationally the placement below. -/
def recommendAux (inLib : Int → String → Bool) (limit : Int)
    (suggestions : List Candidate) (calls : List (Int × String)) :
    List Candidate → List Candidate × List (Int × String)
  | [] => (suggestions, calls)
  | item :: rest =>
    let mt := candMediaType item
    match item.id with
    | none => recommendAux inLib limit suggestions calls rest
    | some tid =>
      if inLib tid mt then
        recommendAux inLib limit suggestions (calls ++ [(tid, mt)]) rest
      else
        if limit ≤ ((suggestions ++ [item]).length : Int) then
          (suggestions ++ [item], calls ++ [(tid, mt)])
        else
          recommendAux inLib limit (suggestions ++ [item]) (calls ++ [(tid, mt)]) rest

/-- `recommend_download` over a given candidate sequence, membership
predicate and limit; returns the suggestions and the invocation log. -/
def recommend_download (inLib : Int → String → Bool) (limit : Int)
    (candidates : List Candidate) : List Candidate × List (Int × String) :=
  recommendAux inLib limit [] [] candidates

/-- Whether the loop accepts a candidate: it has an id and is not in the
library. -/
def candAccept (inLib : Int → String → Bool) (c : Candidate) : Bool :=
  match c.id with
  | none => false
  | some tid => !(inLib tid (candMediaType c))

/-- Structural restatement of the loop: `n` is the length of the
accumulated suggestions list. -/
def recGo (inLib : Int → String → Bool) (limit : Int) :
    Nat → List Candidate → List Candidate × List (Int × String)
  | _, [] => ([], [])
  | n, item :: rest =>
    match item.id with
    | none => recGo inLib limit n rest
    | some tid =>
      if inLib tid (candMediaType item) then
        let p := recGo inLib limit n rest
        (p.1, (tid, candMediaType item) :: p.2)
      else
        if limit ≤ ((n + 1 : Nat) : Int) then
          ([item], [(tid, candMediaType item)])
        else
          let p := recGo inLib limit (n + 1) rest
          (item :: p.1, (tid, candMediaType item) :: p.2)

lemma recommendAux_eq_recGo (inLib : Int → String → Bool) (limit : Int) :
    ∀ (items : List Candidate) (s : List Candidate) (cs : List (Int × String)),
    recommendAux inLib limit s cs items =
      (s ++ (recGo inLib limit s.length items).1,
       cs ++ (recGo inLib limit s.length items).2) := by
  intro items
  induction items with
  | nil =>
    intro s cs
    simp [recommendAux, recGo]
  | cons item rest ih =>
    intro s cs
    cases hid : item.id with
    | none =>
      simp only [recommendAux, recGo, hid]
      exact ih s cs
    | some tid =>
      by_cases hl : inLib tid (candMediaType item) = true
      · simp only [recommendAux, recGo, hid, hl, if_true]
        rw [ih s (cs ++ [(tid, candMediaType item)])]
        simp
      · have hlen : ((s ++ [item]).length : Int) = ((s.length + 1 : Nat) : Int) := by
          simp
        by_cases hstop : limit ≤ ((s.length + 1 : Nat) : Int)
        · simp only [recommendAux, recGo, hid, hl, if_false, hlen, hstop, if_true]
          simp
        · simp only [recommendAux, recGo, hid, hl, if_false, hlen, hstop, if_true]
          simp only [Bool.false_eq_true, if_false]
          rw [ih (s ++ [item]) (cs ++ [(tid, candMediaType item)])]
          simp


lemma recGo_elem_isSome (inLib : Int → String → Bool) (limit : Int) :
    ∀ (items : List Candidate) (n : Nat) (x : Candidate),
    x ∈ (recGo inLib limit n items).1 → x.id.isSome := by
  intro items
  induction items with
  | nil =>
    intro n x hx
    simp [recGo] at hx
  | cons item rest ih =>
    intro n x hx
    cases hid : item.id with
    | none =>
      simp only [recGo, hid] at hx
      exact ih n x hx
    | some tid =>
      by_cases hl : inLib tid (candMediaType item) = true
      · simp only [recGo, hid, hl, if_true] at hx
        exact ih n x hx
      · by_cases hstop : limit ≤ (n : Int) + 1
        · simp [recGo, hid, hl, hstop] at hx
          rw [hx, hid]
          rfl
        · simp [recGo, hid, hl, hstop] at hx
          cases hx with
          | inl hx =>
            rw [hx, hid]
            rfl
          | inr hx =>
            exact ih (n + 1) x hx

lemma recGo_filter_isSome (inLib : Int → String → Bool) (limit : Int) :
    ∀ (items : List Candidate) (n : Nat),
    recGo inLib limit n items =
      recGo inLib limit n (items.filter (fun c => c.id.isSome)) := by
  intro items
  induction items with
  | nil =>
    intro n
    rfl
  | cons item rest ih =>
    intro n
    cases hid : item.id with
    | none =>
      have hf : (item :: rest).filter (fun c => c.id.isSome) =
          rest.filter (fun c => c.id.isSome) := by
        simp [List.filter, hid]
      rw [hf]
      simp only [recGo, hid]
      exact ih n
    | some tid =>
      have hf : (item :: rest).filter (fun c => c.id.isSome) =
          item :: rest.filter (fun c => c.id.isSome) := by
        simp [List.filter, hid]
      rw [hf]
      by_cases hl : inLib tid (candMediaType item) = true
      · simp only [recGo, hid, hl, if_true]
        rw [ih n]
      · by_cases hstop : limit ≤ (n : Int) + 1
        · simp [recGo, hid, hl, hstop]
        · simp only [recGo, hid]
          rw [if_neg hl, if_neg hl]
          have hstop' : ¬ limit ≤ ((n + 1 : Nat) : Int) := by
            push_cast
            exact hstop
          rw [if_neg hstop', if_neg hstop', ih (n + 1)]

lemma recGo_fst_filter_take (inLib : Int → String → Bool) (limit : Int) :
    ∀ (items : List Candidate) (n : Nat), n < limit.toNat →
    (recGo inLib limit n items).1 =
      (items.filter (candAccept inLib)).take (limit.toNat - n) := by
  intro items
  induction items with
  | nil =>
    intro n _
    simp [recGo]
  | cons item rest ih =>
    intro n hn
    cases hid : item.id with
    | none =>
      have hacc : candAccept inLib item = false := by
        simp [candAccept, hid]
      simp only [recGo, hid]
      rw [List.filter_cons, hacc]
      simp only [Bool.false_eq_true, if_false]
      exact ih n hn
    | some tid =>
      by_cases hl : inLib tid (candMediaType item) = true
      · have hacc : candAccept inLib item = false := by
          simp [candAccept, hid, hl]
        simp only [recGo, hid, hl, if_true]
        rw [List.filter_cons, hacc]
        simp only [Bool.false_eq_true, if_false]
        exact ih n hn
      · have hacc : candAccept inLib item = true := by
          simp [candAccept, hid, hl]
        have hfilter : (item :: rest).filter (candAccept inLib) =
            item :: rest.filter (candAccept inLib) := by
          rw [List.filter_cons, hacc]
          simp
        by_cases hstop : limit ≤ (n : Int) + 1
        · have hstop' : limit ≤ ((n + 1 : Nat) : Int) := by
            push_cast
            exact hstop
          have h1 : limit.toNat - n = 1 := by
            omega
          simp only [recGo, hid]
          rw [if_neg hl, if_pos hstop', hfilter, h1]
          simp
        · have hstop' : ¬ limit ≤ ((n + 1 : Nat) : Int) := by
            push_cast
            exact hstop
          have hn1 : n + 1 < limit.toNat := by
            omega
          have h2 : limit.toNat - n = (limit.toNat - (n + 1)) + 1 := by
            omega
          simp only [recGo, hid]
          rw [if_neg hl, if_neg hstop', hfilter, h2, List.take_succ_cons]
          exact congrArg (List.cons item) (ih (n + 1) hn1)

lemma recGo_short_circuit (inLib : Int → String → Bool) (limit : Int) :
    ∀ (items : List Candidate) (n m : Nat), n < limit.toNat →
    limit.toNat - n ≤ (items.take m).countP (candAccept inLib) →
    recGo inLib limit n items = recGo inLib limit n (items.take m) := by
  intro items
  induction items with
  | nil =>
    intro n m _ _
    simp
  | cons item rest ih =>
    intro n m hn hcount
    cases m with
    | zero =>
      exfalso
      simp only [List.take_zero, List.countP_nil] at hcount
      omega
    | succ m' =>
      rw [List.take_succ_cons] at hcount ⊢
      rw [List.countP_cons] at hcount
      cases hid : item.id with
      | none =>
        have hacc : candAccept inLib item = false := by
          simp [candAccept, hid]
        rw [hacc] at hcount
        simp only [Bool.false_eq_true, if_false, add_zero] at hcount
        simp only [recGo, hid]
        exact ih n m' hn hcount
      | some tid =>
        by_cases hl : inLib tid (candMediaType item) = true
        · have hacc : candAccept inLib item = false := by
            simp [candAccept, hid, hl]
          rw [hacc] at hcount
          simp only [Bool.false_eq_true, if_false, add_zero] at hcount
          simp only [recGo, hid, hl, if_true]
          rw [ih n m' hn hcount]
        · have hacc : candAccept inLib item = true := by
            simp [candAccept, hid, hl]
          rw [hacc] at hcount
          simp only [if_true] at hcount
          by_cases hstop : limit ≤ (n : Int) + 1
          · have hstop' : limit ≤ ((n + 1 : Nat) : Int) := by
              push_cast
              exact hstop
            simp only [recGo, hid]
            rw [if_neg hl, if_neg hl, if_pos hstop', if_pos hstop']
          · have hstop' : ¬ limit ≤ ((n + 1 : Nat) : Int) := by
              push_cast
              exact hstop
            have hn1 : n + 1 < limit.toNat := by
              omega
            have hcount' : limit.toNat - (n + 1) ≤
                (rest.take m').countP (candAccept inLib) := by
              omega
            simp only [recGo, hid]
            rw [if_neg hl, if_neg hl, if_neg hstop', if_neg hstop',
              ih (n + 1) m' hn1 hcount']

/-- C2 (amended): for every candidate sequence whose members carry an id,
every membership predicate and every limit ≥ 1, `recommend_download`
returns the candidates not in the library, in input order, truncated to
`limit`, and the membership predicate stops being invoked once `limit`
results have been collected: candidates beyond a prefix that already
contains `limit` accepted results affect neither the output nor the
invocation log. -/
theorem recommend_download_filter_take_short_circuit
    (inLib : Int → String → Bool) (limit : Int) (cands : List Candidate)
    (h1 : 1 ≤ limit) (h2 : ∀ c ∈ cands, c.id.isSome) :
    (recommend_download inLib limit cands).1 =
      (cands.filter
        (fun c => !(inLib (c.id.getD 0) (candMediaType c)))).take limit.toNat
    ∧ ∀ n : Nat,
      limit ≤ (((cands.take n).filter
          (fun c => !(inLib (c.id.getD 0) (candMediaType c)))).length : Int) →
      recommend_download inLib limit cands =
        recommend_download inLib limit (cands.take n) := by
  have hp : ∀ c ∈ cands,
      (!(inLib (c.id.getD 0) (candMediaType c))) = candAccept inLib c := by
    intro c hc
    have hsome := h2 c hc
    cases hcid : c.id with
    | none =>
      rw [hcid] at hsome
      simp at hsome
    | some tid =>
      simp [candAccept, hcid]
  constructor
  · rw [recommend_download, recommendAux_eq_recGo]
    simp only [List.nil_append, List.length_nil]
    rw [recGo_fst_filter_take inLib limit cands 0 (by omega), Nat.sub_zero,
      List.filter_congr hp]
  · intro n hlen
    have hconv : ((cands.take n).filter
        (fun c => !(inLib (c.id.getD 0) (candMediaType c)))).length =
        (cands.take n).countP (candAccept inLib) := by
      rw [← List.countP_eq_length_filter]
      exact List.countP_congr
        (fun c hc => by rw [hp c (List.take_subset n cands hc)])
    rw [hconv] at hlen
    have hcount : limit.toNat - 0 ≤ (cands.take n).countP (candAccept inLib) := by
      omega
    rw [recommend_download, recommend_download, recommendAux_eq_recGo,
      recommendAux_eq_recGo]
    simp only [List.length_nil]
    rw [recGo_short_circuit inLib limit cands 0 n (by omega) hcount]

/-- Witness for `recommend_download_filter_take_short_circuit`: the
spec's example — candidates with ids 1, 2, 3, a library containing
exactly id 2, limit 10 — yields the items with ids 1 and 3 in order. -/
theorem recommend_download_filter_take_short_circuit_witness :
    (1 ≤ (10 : Int))
    ∧ (∀ c ∈ [Candidate.mk none none (some 1), Candidate.mk none none (some 2),
        Candidate.mk none none (some 3)], c.id.isSome)
    ∧ ((recommend_download (fun i _ => i == 2) 10
        [Candidate.mk none none (some 1), Candidate.mk none none (some 2),
          Candidate.mk none none (some 3)]).1 =
      ([Candidate.mk none none (some 1), Candidate.mk none none (some 2),
          Candidate.mk none none (some 3)].filter
        (fun c => !((fun (i : Int) (_ : String) => i == 2) (c.id.getD 0)
          (candMediaType c)))).take (10 : Int).toNat
    ∧ ∀ n : Nat,
      (10 : Int) ≤ ((([Candidate.mk none none (some 1),
          Candidate.mk none none (some 2),
          Candidate.mk none none (some 3)].take n).filter
          (fun c => !((fun (i : Int) (_ : String) => i == 2) (c.id.getD 0)
            (candMediaType c)))).length : Int) →
      recommend_download (fun i _ => i == 2) 10
          [Candidate.mk none none (some 1), Candidate.mk none none (some 2),
            Candidate.mk none none (some 3)] =
        recommend_download (fun i _ => i == 2) 10
          ([Candidate.mk none none (some 1), Candidate.mk none none (some 2),
            Candidate.mk none none (some 3)].take n)) :=
  ⟨by decide, by decide,
    recommend_download_filter_take_short_circuit (fun i _ => i == 2) 10
      [Candidate.mk none none (some 1), Candidate.mk none none (some 2),
        Candidate.mk none none (some 3)] (by decide) (by decide)⟩

/-- C2 counterexample: at limit 0 the claim fails — with one candidate
(id 1) never in the library, the loop still returns one item (the
length-check runs only after an append), so the output is not truncated
to the limit, and the membership predicate is still invoked once even
though 0 results "had already been collected". -/
theorem recommend_download_limit_zero_cex :
    ((recommend_download (fun _ _ => false) 0
        [Candidate.mk none none (some 1)]).1).length = 1
    ∧ ¬ (((recommend_download (fun _ _ => false) 0
        [Candidate.mk none none (some 1)]).1).length ≤ (0 : Int).toNat)
    ∧ (recommend_download (fun _ _ => false) 0
        [Candidate.mk none none (some 1)]).2 ≠ [] := by
  refine ⟨by decide, by decide, by decide⟩

/-- C10: a candidate whose id field is missing (None) is silently
dropped: erasing all such candidates changes neither the output nor the
`is_in_library` invocation log, and no such candidate ever appears in
the output. -/
theorem recommend_download_drops_missing_id
    (inLib : Int → String → Bool) (limit : Int) (cands : List Candidate)
    (c : Candidate) (hc : c.id = none) :
    recommend_download inLib limit cands =
      recommend_download inLib limit (cands.filter (fun x => x.id.isSome))
    ∧ c ∉ (recommend_download inLib limit cands).1 := by
  constructor
  · rw [recommend_download, recommend_download, recommendAux_eq_recGo,
      recommendAux_eq_recGo, ← recGo_filter_isSome]
  · intro hmem
    rw [recommend_download, recommendAux_eq_recGo] at hmem
    simp only [List.nil_append, List.length_nil] at hmem
    have hs := recGo_elem_isSome inLib limit cands 0 c hmem
    rw [hc] at hs
    simp at hs

/-- Witness for `recommend_download_drops_missing_id` at a concrete
candidate list containing an id-less candidate. -/
theorem recommend_download_drops_missing_id_witness :
    ((Candidate.mk (some "movie") none none).id = none)
    ∧ (recommend_download (fun _ _ => false) 5
        [Candidate.mk (some "movie") none none, Candidate.mk none none (some 7)] =
      recommend_download (fun _ _ => false) 5
        ([Candidate.mk (some "movie") none none,
          Candidate.mk none none (some 7)].filter (fun x => x.id.isSome))
    ∧ Candidate.mk (some "movie") none none ∉
        (recommend_download (fun _ _ => false) 5
          [Candidate.mk (some "movie") none none,
            Candidate.mk none none (some 7)]).1) :=
  ⟨by decide,
    recommend_download_drops_missing_id (fun _ _ => false) 5
      [Candidate.mk (some "movie") none none, Candidate.mk none none (some 7)]
      (Candidate.mk (some "movie") none none) (by decide)⟩

/-! ## src/app/services/provider.py — provider link resolution

`resolve_provider_link` (lines 28-74) builds a best-effort URL for a
named streaming provider from a normalized display string.  The YouTube
Data API credential (`os.environ.get("YOUTUBE_DATA_API_KEY")`) is the
`apiKey : Option String` parameter (Python truthiness: `None` and `""`
disable the lookup).  The HTTP world of `_find_youtube_video_id`
(request, `raise_for_status`, JSON parse and `items` extraction) is the
oracle `http : YtRequest → Except Unit (List YtItem)`: an `error`
outcome is any raised exception, an `ok` outcome is the parsed `items`
list.  `urllib.parse.quote_plus` is modelled byte-faithfully below. -/

/-- UTF-8 byte values of a Unicode code point. -/
def utf8Bytes (n : Nat) : List Nat :=
  if n < 128 then [n]
  else if n < 2048 then [192 + n / 64, 128 + n % 64]
  else if n < 65536 then [224 + n / 4096, 128 + (n / 64) % 64, 128 + n % 64]
  else [240 + n / 262144, 128 + (n / 4096) % 64, 128 + (n / 64) % 64,
    128 + n % 64]

/-- Uppercase hexadecimal digit. -/
def hexDigit (n : Nat) : String :=
  if n < 10 then String.singleton (Char.ofNat (48 + n))
  else String.singleton (Char.ofNat (55 + n))

/-- Characters `urllib.parse.quote_plus` leaves unescaped (ALWAYS_SAFE:
ASCII letters, digits, and `_.-~`). -/
def quoteSafe (c : Char) : Bool :=
  c.isAlphanum || c == '_' || c == '.' || c == '-' || c == '~'

/-- Percent-encoding of one character, space mapped to `+`. -/
def quotePlusChar (c : Char) : String :=
  if c == ' ' then "+"
  else if quoteSafe c then String.singleton c
  else String.join ((utf8Bytes c.toNat).map
    (fun b => "%" ++ hexDigit (b / 16) ++ hexDigit (b % 16)))

/-- `urllib.parse.quote_plus`. -/
def quote_plus (s : String) : String :=
  String.join (s.data.map quotePlusChar)

/-- Parameter dictionary of the YouTube Data API search request built by
`_find_youtube_video_id` (provider.py lines 51-58): part, maxResults, q,
type, key. -/
structure YtRequest where
  part : String
  maxResults : Nat
  q : String
  type : String
  key : String
deriving DecidableEq, Repr

/-- The `"id"` object of a search result (`items[0]["id"]`); `videoId`
is `none` when the `"videoId"` key is absent. -/
structure YtId where
  videoId : Option String
deriving DecidableEq, Repr

/-- One entry of the `items` array; `id` is `none` when the `"id"` key
is absent. -/
structure YtItem where
  id : Option YtId
deriving DecidableEq, Repr

/-- The request `_find_youtube_video_id` sends:
`{"part": "snippet", "maxResults": 5, "q": query, "type": "video",
"key": api_key}`. -/
def ytSearchRequest (query apiKey : String) : YtRequest :=
  ⟨"snippet", 5, query, "video", apiKey⟩

/-- `_find_youtube_video_id` (provider.py lines 77-101): perform the
search, return the first result's video id, `none` on any failure
(request error, no results, missing `"id"`/`"videoId"` keys — the
bare `except Exception: return None`). -/
def _find_youtube_video_id (http : YtRequest → Except Unit (List YtItem))
    (query apiKey : String) : Option String :=
  match http (ytSearchRequest query apiKey) with
  | .error _ => none
  | .ok items =>
    match items with
    | [] => none
    | it :: _ =>
      match it.id with
      | none => none
      | some o => o.videoId

/-- The normalized display string: `"{title}"`, or `"{title} ({year})"`
when `year` is truthy (present and nonzero). -/
def normalizedTitle (title : String) (year : Option Int) : String :=
  match year with
  | none => title
  | some y => if y == 0 then title else title ++ " (" ++ toString y ++ ")"

/-- `resolve_provider_link` (provider.py lines 28-74).  `media_type` and
`tmdb_id` are accepted and unused, exactly as in the source.  The watch
URL is guarded by `if video_id:` (line 63), a Python truthiness test
under which both `None` and the empty string fall through to the
search-results fallback. -/
def resolve_provider_link (title : String) (mediaType : String)
    (tmdbId : Int) (year : Option Int) (provider : String)
    (apiKey : Option String)
    (http : YtRequest → Except Unit (List YtItem)) : String :=
  let normalized := normalizedTitle title year
  if provider == "netflix" then
    "https://www.netflix.com/search?q=" ++ quote_plus normalized
  else if provider == "max" then
    "https://play.max.com/search?q=" ++ quote_plus normalized
  else if provider == "discovery" then
    "https://discoveryplus.com/search?q=" ++ quote_plus normalized
  else if provider == "youtube" then
    match apiKey with
    | some k =>
      if k == "" then
        "https://www.youtube.com/results?search_query=" ++
          quote_plus (normalized ++ " full movie")
      else
        let video_id := _find_youtube_video_id http normalized k
        if truthyStr video_id then
          "https://www.youtube.com/watch?v=" ++ video_id.getD ""
        else
          "https://www.youtube.com/results?search_query=" ++
            quote_plus (normalized ++ " full movie")
    | none =>
      "https://www.youtube.com/results?search_query=" ++
        quote_plus (normalized ++ " full movie")
  else if provider == "youtube_tv" then
    "https://tv.youtube.com/search?q=" ++ quote_plus normalized
  else
    "https://www.google.com/search?q=" ++ quote_plus normalized

lemma append_https (a b q : String) (h : a = "https://" ++ b) :
    ∃ rest, a ++ q = "https://" ++ rest :=
  ⟨b ++ q, by rw [h, String.append_assoc]⟩

/-- C3: `resolve_provider_link` is total — for every title, media type,
tmdb id, optional year, provider name (including names outside the
closed enumeration), credential state and lookup outcome, it returns an
`https` URL — and a provider name outside the enumeration yields the
generic web-search URL for the normalized query. -/
theorem resolve_provider_link_total_unknown_fallback
    (title mediaType : String) (tmdbId : Int) (year : Option Int)
    (provider : String) (apiKey : Option String)
    (http : YtRequest → Except Unit (List YtItem)) :
    (∃ rest : String,
      resolve_provider_link title mediaType tmdbId year provider apiKey http =
        "https://" ++ rest)
    ∧ (provider ∉ ["netflix", "max", "discovery", "youtube", "youtube_tv"] →
      resolve_provider_link title mediaType tmdbId year provider apiKey http =
        "https://www.google.com/search?q=" ++
          quote_plus (normalizedTitle title year)) := by
  constructor
  · unfold resolve_provider_link
    by_cases h1 : (provider == "netflix") = true
    · rw [if_pos h1]
      exact append_https _ "www.netflix.com/search?q=" _ (by decide)
    rw [if_neg h1]
    by_cases h2 : (provider == "max") = true
    · rw [if_pos h2]
      exact append_https _ "play.max.com/search?q=" _ (by decide)
    rw [if_neg h2]
    by_cases h3 : (provider == "discovery") = true
    · rw [if_pos h3]
      exact append_https _ "discoveryplus.com/search?q=" _ (by decide)
    rw [if_neg h3]
    by_cases h4 : (provider == "youtube") = true
    · rw [if_pos h4]
      cases apiKey with
      | none =>
        exact append_https _ "www.youtube.com/results?search_query=" _ (by decide)
      | some k =>
        dsimp only
        by_cases hk : (k == "") = true
        · rw [if_pos hk]
          exact append_https _ "www.youtube.com/results?search_query=" _ (by decide)
        rw [if_neg hk]
        by_cases hv : truthyStr
            (_find_youtube_video_id http (normalizedTitle title year) k) = true
        · rw [if_pos hv]
          exact append_https _ "www.youtube.com/watch?v=" _ (by decide)
        · rw [if_neg hv]
          exact append_https _ "www.youtube.com/results?search_query=" _ (by decide)
    rw [if_neg h4]
    by_cases h5 : (provider == "youtube_tv") = true
    · rw [if_pos h5]
      exact append_https _ "tv.youtube.com/search?q=" _ (by decide)
    rw [if_neg h5]
    exact append_https _ "www.google.com/search?q=" _ (by decide)
  · intro hmem
    have n1 : provider ≠ "netflix" := fun h => hmem (by rw [h]; simp)
    have n2 : provider ≠ "max" := fun h => hmem (by rw [h]; simp)
    have n3 : provider ≠ "discovery" := fun h => hmem (by rw [h]; simp)
    have n4 : provider ≠ "youtube" := fun h => hmem (by rw [h]; simp)
    have n5 : provider ≠ "youtube_tv" := fun h => hmem (by rw [h]; simp)
    unfold resolve_provider_link
    rw [if_neg (by simp [n1]), if_neg (by simp [n2]), if_neg (by simp [n3]),
      if_neg (by simp [n4]), if_neg (by simp [n5])]

/-- Witness for `resolve_provider_link_total_unknown_fallback`: the
provider name "unknown" with no credential. -/
theorem resolve_provider_link_total_unknown_fallback_witness :
    ("unknown" ∉ ["netflix", "max", "discovery", "youtube", "youtube_tv"])
    ∧ resolve_provider_link "Inception" "movie" 27205 (some 2010) "unknown"
        none (fun _ => .error ()) =
      "https://www.google.com/search?q=" ++
        quote_plus (normalizedTitle "Inception" (some 2010)) :=
  ⟨by decide,
    (resolve_provider_link_total_unknown_fallback "Inception" "movie" 27205
      (some 2010) "unknown" none (fun _ => .error ())).2 (by decide)⟩

def get_trending (resp : Except Unit (Option (List Candidate)))
    (limit : Nat) : Except Unit (List Candidate) :=
  match resp with
  | .error e => .error e
  | .ok data => .ok ((data.getD []).take limit)

def get_streaming_highlights (resp : Except Unit (Option (List Candidate)))
    (limit : Nat) : Except Unit (List Candidate) :=
  get_trending resp limit

/-- C9: for every upstream response and every limit,
`get_streaming_highlights` returns exactly the same sequence as
`get_trending` — the "Streaming Highlights" data is definitionally the
trending data. -/
theorem streaming_highlights_eq_trending
    (resp : Except Unit (Option (List Candidate))) (limit : Nat) :
    get_streaming_highlights resp limit = get_trending resp limit :=
  rfl

/-! ## src/app/services/jellyfin.py — per-call endpoint selection

`JellyfinClient` stores `lan_url`, `wan_url`, `api_key`, `user_id`
(lines 19-27); no method of the class assigns to `self`, which the
embedding reflects by every operation returning the client it received.
`_base` (lines 38-48) probes the LAN address with a 0.5 s HEAD request
on each call; the probe's outcome at the moment of one call is the
`lanReachable : Bool` argument.  `_get` (lines 50-54) builds
`f"{self._base()}{path}"`, `stream_url` (lines 76-78) builds
`f"{self._base()}/Videos/{item_id}/stream?api_key={self.api_key}"`, and
`play_item` (lines 84-91) posts to
`f"{self._base()}/Sessions/{session_id}/Playing"`. -/

structure JellyfinClient where
  lan_url : String
  wan_url : String
  api_key : String
  user_id : String
deriving DecidableEq, Repr

/-- `_base`: the LAN URL when the probe succeeds, else the WAN URL. -/
def _base (c : JellyfinClient) (lanReachable : Bool) : String :=
  if lanReachable then c.lan_url else c.wan_url

/-- `stream_url` (jellyfin.py lines 76-78). -/
def stream_url (c : JellyfinClient) (lanReachable : Bool)
    (itemId : String) : String :=
  _base c lanReachable ++ "/Videos/" ++ itemId ++ "/stream?api_key=" ++
    c.api_key

/-- One Jellyfin client operation: a `_get` of a path, a stream-URL
construction, or a play command. -/
inductive JfCall where
  | getPath (path : String)
  | stream (itemId : String)
  | play (sessionId : String)
deriving DecidableEq, Repr

/-- The URL an operation uses, given that call's probe outcome. -/
def callUrl (c : JellyfinClient) (lanReachable : Bool) : JfCall → String
  | .getPath path => _base c lanReachable ++ path
  | .stream itemId => stream_url c lanReachable itemId
  | .play sessionId => _base c lanReachable ++ "/Sessions/" ++ sessionId ++
      "/Playing"

/-- One operation: the URL it requests and the client object afterwards
(no method of the source class assigns to `self`). -/
def doCall (c : JellyfinClient) (lanReachable : Bool) (k : JfCall) :
    String × JellyfinClient :=
  (callUrl c lanReachable k, c)

/-- A sequence of operations on one client object, each with its own
probe outcome, threading the client through as Python threads the
object. -/
def runCalls (c : JellyfinClient) :
    List (Bool × JfCall) → List String × JellyfinClient
  | [] => ([], c)
  | (r, k) :: rest =>
    let step := doCall c r k
    let further := runCalls step.2 rest
    (step.1 :: further.1, further.2)

/-- C8: every operation's URL is computed from that call's own
reachability probe — LAN when the probe succeeds, WAN otherwise — the
client's stored fields are unchanged after any call sequence, and the
i-th call's URL depends only on the i-th probe outcome and the original
client, never on earlier calls' outcomes. -/
theorem jellyfin_base_per_call (c : JellyfinClient)
    (trace : List (Bool × JfCall)) :
    runCalls c trace = (trace.map (fun p => callUrl c p.1 p.2), c)
    ∧ (∀ r : Bool, _base c r = if r then c.lan_url else c.wan_url)
    ∧ (∀ (r : Bool) (k : JfCall), (doCall c r k).2 = c) := by
  refine ⟨?_, fun r => rfl, fun r k => rfl⟩
  induction trace with
  | nil => rfl
  | cons p rest ih =>
    cases p with
    | mk r k =>
      simp only [runCalls, doCall, List.map_cons]
      rw [ih]

/-! ## src/app/main.py — the home and title-detail routes

A route's upstream dependencies are modelled as explicit call-site
outcomes: each `Except Unit _` field is the outcome (raised exception or
returned value) of the single upstream call the route makes there.
`RouteErr.notFound` is the `HTTPException(status_code=404)` the handler
raises deliberately; `RouteErr.propagated` is any exception that escapes
the handler. -/

inductive RouteErr where
  | notFound
  | propagated
deriving DecidableEq, Repr

/-- Outcomes of the five list-producing calls made by `home`
(main.py lines 49-69). -/
structure HomeWorld where
  continueWatching : Except Unit (List String)
  recentlyAdded : Except Unit (List String)
  recommendDownload : Except Unit (List String)
  trending : Except Unit (List String)
  streamingHighlights : Except Unit (List String)

/-- The `try: ... except Exception: ... = []` pattern of main.py
lines 49-69. -/
def recover (e : Except Unit (List String)) : List String :=
  match e with
  | .ok l => l
  | .error _ => []

structure HomeRow where
  title : String
  items : List String
  kind : String
deriving DecidableEq, Repr

structure HomePage where
  rows : List HomeRow
  jellyfin_url : String
deriving DecidableEq, Repr

/-- `home` (main.py lines 45-84): five independently guarded list
fetches, then the rows list and the template context. -/
def home (w : HomeWorld) (jf : JellyfinClient) (lanReachable : Bool) :
    Except RouteErr HomePage :=
  let continue_watching := recover w.continueWatching
  let recently_added := recover w.recentlyAdded
  let recommended_download := recover w.recommendDownload
  let trending := recover w.trending
  let stream_picks := recover w.streamingHighlights
  .ok ⟨[⟨"Continue Watching", continue_watching, "jellyfin"⟩,
        ⟨"Recently Added", recently_added, "jellyfin"⟩,
        ⟨"Recommended to Download", recommended_download, "tmdb"⟩,
        ⟨"Trending Now", trending, "tmdb"⟩,
        ⟨"Streaming Highlights", stream_picks, "tmdb"⟩],
      _base jf lanReachable⟩

/-- C6: for every combination of outcomes of the five list-producing
calls, `home` renders the page (never an error), and a row whose
underlying call raised shows exactly the empty list (`recover` maps a
raised call to `[]`). -/
theorem home_renders_and_degrades (w : HomeWorld) (jf : JellyfinClient)
    (lanReachable : Bool) :
    home w jf lanReachable = .ok
      ⟨[⟨"Continue Watching", recover w.continueWatching, "jellyfin"⟩,
        ⟨"Recently Added", recover w.recentlyAdded, "jellyfin"⟩,
        ⟨"Recommended to Download", recover w.recommendDownload, "tmdb"⟩,
        ⟨"Trending Now", recover w.trending, "tmdb"⟩,
        ⟨"Streaming Highlights", recover w.streamingHighlights, "tmdb"⟩],
        _base jf lanReachable⟩
    ∧ recover (.error ()) = [] :=
  ⟨rfl, rfl⟩

/-- An upstream Jellyfin session record, with the keys
`list_playback_devices` (provider.py lines 104-125) reads. -/
structure Session where
  Id : Option String
  DeviceName : Option String
  DeviceId : Option String
  Client : Option String
  DeviceType : Option String
  SupportsRemoteControl : Option Bool
deriving DecidableEq, Repr

structure Device where
  id : Option String
  device_name : String
  client : String
  controllable : Bool
deriving DecidableEq, Repr

/-- Python's `a or b` over optional strings (`None` and `""` falsy). -/
def pyOr (a b : Option String) : Option String :=
  if truthyStr a then a else b

/-- `x or y or default` chain ending in a mandatory string. -/
def orDefault (a b : Option String) (d : String) : String :=
  if truthyStr a then a.getD ""
  else if truthyStr b then b.getD ""
  else d

/-- `list_playback_devices` (provider.py lines 104-125). -/
def list_playback_devices (sessions : List Session) : List Device :=
  sessions.map (fun s =>
    ⟨s.Id, orDefault s.DeviceName s.DeviceId "Unknown",
      orDefault s.Client s.DeviceType "",
      s.SupportsRemoteControl.getD false⟩)

/-- A TMDB detail record, with the keys `title_detail` reads. -/
structure TmdbItem where
  title : Option String
  name : Option String
  release_date : Option String
  first_air_date : Option String
deriving DecidableEq, Repr

/-- Decimal digit run to a number; `none` on a non-digit. -/
def digitsValAux : List Char → Nat → Option Nat
  | [], acc => some acc
  | c :: cs, acc =>
    if c.isDigit then digitsValAux cs (acc * 10 + (c.toNat - 48))
    else none

/-- Python's `int(...)` on a string: optional sign then decimal digits,
`none` (a raised `ValueError`) otherwise. -/
def str_to_int (s : String) : Option Int :=
  match s.data with
  | [] => none
  | '-' :: c :: cs => (digitsValAux (c :: cs) 0).map (fun n => -(n : Int))
  | cs => (digitsValAux cs 0).map (fun n => (n : Int))

/-- Truthiness of an optional integer (`0` and `None` falsy). -/
def truthyInt : Option Int → Bool
  | none => false
  | some y => !(y == 0)

/-- main.py lines 123-129: `year = item.get("release_date") or
item.get("first_air_date")`, then `int(year.split("-")[0])` guarded by
a `try/except` that leaves `year_int = None`. -/
def parseYear (item : TmdbItem) : Option Int :=
  match pyOr item.release_date item.first_air_date with
  | none => none
  | some y =>
    if y == "" then none
    else
      match str_to_int ((y.splitOn "-").headD "") with
      | some n => some n
      | none => none

/-- Outcomes of the upstream calls `title_detail` can make, plus the
ambient state it reads: the Jellyfin client (for `stream_url`), the
probe outcome of that call, the YouTube credential and oracle (for
`resolve_provider_link`), and the ratings store. -/
structure DetailWorld where
  getItem : Except Unit String
  listSessions : Except Unit (List Session)
  getDetails : Except Unit TmdbItem
  isInLibrary : Except Unit Bool
  jf : JellyfinClient
  lanReachable : Bool
  ytApiKey : Option String
  ytHttp : YtRequest → Except Unit (List YtItem)
  ratings : List RatingRow

/-- The template context assembled by `title_detail` (one structure for
both branches; fields the branch does not set are `none`/empty). -/
structure TitlePage where
  kind : String
  item_jf : Option String
  item_tmdb : Option TmdbItem
  devices : List Device
  play_url : Option String
  media_type : Option String
  in_library : Option Bool
  provider_links : List (String × String)
  rating : Option Int
deriving DecidableEq, Repr

/-- The five provider links built in main.py lines 130-139. -/
def providerLinks (w : DetailWorld) (t : String) (mediaType : String)
    (tmdbId : Int) (yearInt : Option Int) : List (String × String) :=
  ["netflix", "max", "discovery", "youtube", "youtube_tv"].map
    (fun name =>
      (name, resolve_provider_link t mediaType tmdbId yearInt name
        w.ytApiKey w.ytHttp))

/-- `title_detail` (main.py lines 87-151).  Only `get_item` and
`get_details` are guarded by `try/except` (→ 404 not-found); the
later calls `list_playback_devices` (which performs
`jellyfin.list_sessions()`) and `jellyfin.is_in_library(...)` are not
guarded, so their exceptions escape the handler.  `int(item_id)` can
also raise (not an upstream failure).  When, for a malformed detail
record, both `title` and `name` are missing and no truthy year was
parsed, `urllib.parse.quote_plus(None)` raises a `TypeError` inside the
first provider-link construction; with a truthy year Python formats
`None` into the string `"None (year)"`. -/
def title_detail (w : DetailWorld) (kind : String) (itemId : String)
    (mediaTypeParam : Option String) : Except RouteErr TitlePage :=
  if kind == "jellyfin" then
    match w.getItem with
    | .error _ => .error .notFound
    | .ok item =>
      match w.listSessions with
      | .error _ => .error .propagated
      | .ok sessions =>
        let devices := list_playback_devices sessions
        let play_url := stream_url w.jf w.lanReachable itemId
        let rating := get_rating w.ratings "jellyfin" itemId
        .ok ⟨"jellyfin", some item, none, devices, some play_url, none,
          none, [], rating⟩
  else
    let mediaType := match mediaTypeParam with
      | none => if kind == "tmdb" then "movie" else "movie"
      | some m => m
    match str_to_int itemId with
    | none => .error .propagated
    | some tmdbId =>
      match w.getDetails with
      | .error _ => .error .notFound
      | .ok item =>
        match w.isInLibrary with
        | .error _ => .error .propagated
        | .ok inLib =>
          let yearInt := parseYear item
          let rating := get_rating w.ratings "tmdb"
            (mediaType ++ ":" ++ toString tmdbId)
          match pyOr item.title item.name with
          | some t =>
            .ok ⟨"tmdb", none, some item, [], none, some mediaType,
              some inLib, providerLinks w t mediaType tmdbId yearInt,
              rating⟩
          | none =>
            if truthyInt yearInt then
              .ok ⟨"tmdb", none, some item, [], none, some mediaType,
                some inLib,
                providerLinks w "None" mediaType tmdbId yearInt, rating⟩
            else
              .error .propagated

/-- C5 counterexample: the detail lookup itself succeeds but the
subsequent (unguarded) library-membership check raises; the handler
propagates the exception instead of producing the not-found response,
so an upstream exception does reach the user as an error. -/
theorem title_detail_membership_failure_propagates :
    title_detail
      ⟨.ok "", .ok [], .ok ⟨some "T", none, some "2010-01-01", none⟩,
        .error (), ⟨"l", "w", "key", "u"⟩, true, none,
        fun _ => .error (), []⟩
      "tmdb" "1" (some "movie") = .error .propagated
    ∧ RouteErr.propagated ≠ RouteErr.notFound := by
  refine ⟨rfl, by decide⟩

/-- C5 (amended): a failure of the single-item detail lookup itself
(`jellyfin.get_item` in the jellyfin branch, `tmdb.get_details` in the
tmdb branch) produces the user-visible not-found response; failures of
the later unguarded upstream calls of the same handler (session
listing, library membership) are not covered and propagate. -/
theorem title_detail_lookup_failure_not_found (w : DetailWorld)
    (itemId : String) (mediaTypeParam : Option String) :
    (w.getItem = .error () →
      title_detail w "jellyfin" itemId mediaTypeParam = .error .notFound)
    ∧ (∀ n : Int, str_to_int itemId = some n → w.getDetails = .error () →
      title_detail w "tmdb" itemId mediaTypeParam = .error .notFound) := by
  constructor
  · intro hfail
    unfold title_detail
    rw [if_pos (by decide), hfail]
  · intro n hparse hfail
    unfold title_detail
    rw [if_neg (by decide), hparse]
    dsimp only
    rw [hfail]

/-- Witness for `title_detail_lookup_failure_not_found` at a concrete
world in which both detail lookups raise. -/
theorem title_detail_lookup_failure_not_found_witness :
    ((⟨.error (), .ok [], .error (), .ok true, ⟨"l", "w", "key", "u"⟩,
        true, none, fun _ => .error (), []⟩ : DetailWorld).getItem =
      .error ())
    ∧ (str_to_int "7" = some 7)
    ∧ ((⟨.error (), .ok [], .error (), .ok true, ⟨"l", "w", "key", "u"⟩,
        true, none, fun _ => .error (), []⟩ : DetailWorld).getDetails =
      .error ())
    ∧ title_detail
        ⟨.error (), .ok [], .error (), .ok true, ⟨"l", "w", "key", "u"⟩,
          true, none, fun _ => .error (), []⟩
        "jellyfin" "7" none = .error .notFound
    ∧ title_detail
        ⟨.error (), .ok [], .error (), .ok true, ⟨"l", "w", "key", "u"⟩,
          true, none, fun _ => .error (), []⟩
        "tmdb" "7" none = .error .notFound :=
  ⟨rfl, by decide, rfl,
    (title_detail_lookup_failure_not_found
      ⟨.error (), .ok [], .error (), .ok true, ⟨"l", "w", "key", "u"⟩,
        true, none, fun _ => .error (), []⟩ "7" none).1 rfl,
    (title_detail_lookup_failure_not_found
      ⟨.error (), .ok [], .error (), .ok true, ⟨"l", "w", "key", "u"⟩,
        true, none, fun _ => .error (), []⟩ "7" none).2 7 (by decide) rfl⟩
